import Mathlib

/-!
Verification development for `src/log-user-inputs.py`, a single-file logging
hook.  The script reads one JSON event from standard input, extracts recent
user messages from a JSONL transcript, assembles a context mapping, appends a
formatted line to two log files and updates persisted usage counters.

The embedding below translates each Python function of the source into a Lean
definition over an explicit model of the parsed JSON values and of the small
world of files the script touches.  JSON numbers are modelled as integers (no
claim involves floats); a JSON object is its ordered list of key/value pairs
with distinct keys, exactly the shape a Python dict obtained from `json.loads`
has.  File-system failures are modelled by option-valued file contents and by
boolean write oracles, since the script swallows every such failure.
-/

namespace UserInputLogger

/-- A JSON value as produced by Python's `json.loads`:  `None`, booleans,
numbers (integers; floats are unused by every claim), strings, lists and
dicts.  Dict fields are kept in insertion order and have distinct keys. -/
inductive Json where
  | null : Json
  | bool (b : Bool) : Json
  | num (n : Int) : Json
  | str (s : String) : Json
  | arr (elems : List Json) : Json
  | obj (fields : List (String × Json)) : Json

/-- Python dict lookup `d.get(k)` on the ordered field list: the value at the
first (and, keys being distinct, only) occurrence of the key. -/
def lookupField : List (String × Json) → String → Option Json
  | [], _ => none
  | (k', v) :: rest, k => if k' = k then some v else lookupField rest k

/-- Python dict assignment `d[k] = v`: an existing key keeps its position and
gets the new value; a new key is appended at the end. -/
def setField : List (String × Json) → String → Json → List (String × Json)
  | [], k, v => [(k, v)]
  | (k', v') :: rest, k, v =>
      if k' = k then (k', v) :: rest else (k', v') :: setField rest k v

/-- `entry.get(k)` where `entry` is any parsed JSON value; `none` both when
the key is absent and when the value is not a dict (in the source the latter
raises `AttributeError`, which every caller handles). -/
def Json.getField (j : Json) (k : String) : Option Json :=
  match j with
  | .obj fields => lookupField fields k
  | _ => none

/-- Python truthiness of a parsed JSON value (`if x:`). -/
def pyTruthy : Json → Bool
  | .null => false
  | .bool b => b
  | .num n => n != 0
  | .str s => s != ""
  | .arr es => !es.isEmpty
  | .obj fs => !fs.isEmpty

/-- A character Python's default `str.strip()` removes.  The common ASCII
whitespace characters are modelled; the exotic Unicode space characters,
which no claim exercises, are not. -/
def isPySpace (c : Char) : Bool :=
  c = ' ' || c = '\t' || c = '\n' || c = '\r' || c = Char.ofNat 11 || c = Char.ofNat 12

/-- Python `s.strip()`: the string without its leading and trailing
whitespace. -/
def pyStrip (s : String) : String :=
  String.mk (((s.data.dropWhile isPySpace).reverse.dropWhile isPySpace).reverse)

/-- Whether a string contains a character (Python `c in s`). -/
def strContainsChar (s : String) (c : Char) : Bool :=
  s.data.contains c

/-- Python `s.startswith(p)`: the characters of `p` are an initial segment of
those of `s`. -/
def strStartsWith (s p : String) : Bool :=
  p.data.isPrefixOf s.data

/-- The single-quote character, written by code point to keep literals
uncluttered. -/
def squote : Char := Char.ofNat 39

/-- The double-quote character. -/
def dquote : Char := Char.ofNat 34

/-- One character of a Python string literal as `repr` renders it, given the
chosen quote character.  Only the common escapes (backslash, the quote
itself, newline, carriage return, tab) are modelled; other control characters
are passed through verbatim.  No claim exercises those. -/
def pyEscapeChar (quote c : Char) : String :=
  if c = '\\' then "\\\\"
  else if c = quote then "\\" ++ String.singleton c
  else if c = '\n' then "\\n"
  else if c = '\r' then "\\r"
  else if c = '\t' then "\\t"
  else String.singleton c

/-- Python `repr` of a string: double-quoted when the string contains a
single quote but no double quote, single-quoted otherwise. -/
def pyReprStr (s : String) : String :=
  if strContainsChar s squote && !(strContainsChar s dquote) then
    String.singleton dquote ++ String.join (s.data.map (pyEscapeChar dquote))
      ++ String.singleton dquote
  else
    String.singleton squote ++ String.join (s.data.map (pyEscapeChar squote))
      ++ String.singleton squote

mutual

/-- Python `repr()` of a value obtained from `json.loads`:  `None`, `True`,
`False`, decimal integers, quoted strings, bracketed lists and braced
dicts. -/
def pyRepr : Json → String
  | .null => "None"
  | .bool true => "True"
  | .bool false => "False"
  | .num n => toString n
  | .str s => pyReprStr s
  | .arr es => "[" ++ pyReprList es ++ "]"
  | .obj fs => "\x7b" ++ pyReprObj fs ++ "\x7d"

/-- Comma-separated reprs of list elements. -/
def pyReprList : List Json → String
  | [] => ""
  | [e] => pyRepr e
  | e :: rest => pyRepr e ++ ", " ++ pyReprList rest

/-- Comma-separated `key: value` reprs of dict items. -/
def pyReprObj : List (String × Json) → String
  | [] => ""
  | [(k, v)] => pyReprStr k ++ ": " ++ pyRepr v
  | (k, v) :: rest => pyReprStr k ++ ": " ++ pyRepr v ++ ", " ++ pyReprObj rest

end

/-- Python `str()` of a value obtained from `json.loads`: strings are taken
verbatim, everything else renders as its repr. -/
def pyStr : Json → String
  | .str s => s
  | j => pyRepr j

/-- The `CONFIG` dict of the script (lines 19-26 of the source). -/
structure Config where
  max_transcript_lines : Nat
  max_messages_per_capture : Nat
  min_message_length : Nat
  log_retention_days : Nat
  enable_daily_logs : Bool
  enable_statistics : Bool
deriving Repr

/-- `CONFIG = ⟨20, 3, 10, 30, True, True⟩`, in the field order above. -/
def CONFIG : Config := ⟨20, 3, 10, 30, true, true⟩

/-- One line of the transcript file: `json.loads(line.strip())` either
succeeds (`some` entry) or raises, in which case the line is skipped
(`none`). -/
abbrev TranscriptLine := Option Json

/-- The `text_content` computed at lines 61-72 of the source: a plain string
content is used directly; for a non-empty list content the first element's
`text` field is used when that element is a dict (empty string when the field
is absent), otherwise `str(content[0])`; in every other case `text_content`
keeps its initial value `''`. -/
def textContentOf (content : Json) : Json :=
  match content with
  | .str _ => content
  | .arr (first :: _) =>
      match first with
      | .obj fields => (lookupField fields "text").getD (.str "")
      | _ => .str (pyStr first)
  | _ => .str ""

/-- The filter of lines 79-83: not a command marker, not a known system
feedback message, and at least `CONFIG.min_message_length` characters long.
Applied to the already-trimmed text. -/
def passesFilters (text : String) : Bool :=
  !(strStartsWith text "<command-") &&
  !(strStartsWith text "Stop hook feedback") &&
  !(strStartsWith text "[Request interrupted") &&
  !(strStartsWith text "Caveat:") &&
  decide (CONFIG.min_message_length ≤ text.length)

/-- The test `entry.get('type') == 'user'` of line 56: true exactly when the
`type` field holds the string `user`. -/
def Json.isUserType (entry : Json) : Bool :=
  match entry.getField "type" with
  | some (.str t) => t == "user"
  | _ => false

/-- Lines 56-74 of the source: the candidate text of one parsed transcript
entry, before trimming and filtering.  `none` models every skip: the entry is
not a dict or its type is not `user`; its `message` field is present but not
a dict (`AttributeError`, caught at line 86); or `text_content` ends up empty
or not a string. -/
def candidateText (entry : Json) : Option String :=
  match entry with
  | .obj _ =>
      if entry.isUserType then
        match (entry.getField "message").getD (.obj []) with
        | .obj mfields =>
            match textContentOf ((lookupField mfields "content").getD (.str "")) with
            | .str s => if s = "" then none else some s
            | _ => none
        | _ => none
      else none
  | _ => none

/-- Lines 56-87 of the source: the message appended to `user_messages` for
one parsed line, if any — the candidate text, trimmed, provided it passes the
filters. -/
def processEntry (entry : Json) : Option String :=
  match candidateText entry with
  | some raw => if passesFilters (pyStrip raw) then some (pyStrip raw) else none
  | none => none

/-- The loop of lines 51-87 applied to the transcript's parsed lines: every
qualifying message found in the last `CONFIG.max_transcript_lines` lines, in
order of appearance.  (`lines[-n:]` on a list shorter than `n` is the whole
list, which is what the truncated subtraction gives.) -/
def qualifyingMessages (lines : List TranscriptLine) : List String :=
  (lines.drop (lines.length - CONFIG.max_transcript_lines)).filterMap
    (fun l => l.bind processEntry)

/-- The final slice of line 93 applied to the scan's result: at most the
last `CONFIG.max_messages_per_capture` qualifying messages.  (`msgs[-3:] if
msgs else []` coincides with the drop.) -/
def extractFromLines (lines : List TranscriptLine) : List String :=
  (qualifyingMessages lines).drop
    ((qualifyingMessages lines).length - CONFIG.max_messages_per_capture)

/-- `extract_user_messages_from_transcript` (lines 29-93).  The file system
maps a path to the parsed lines of a readable file, `none` when the file is
missing or unreadable (both give an empty result in the source: the early
return at line 44, or the broad handler at lines 89-91).  The session id is
accepted but never used, exactly as in the source. -/
def extract_user_messages_from_transcript (fs : String → Option (List TranscriptLine))
    (transcript_path : String) (session_id : String) : List String :=
  match fs transcript_path with
  | none => []
  | some lines => extractFromLines lines

/-- The allow-list of lines 118-122 of the source. -/
def potential_user_fields : List String :=
  ["user_message", "message", "prompt", "input", "context",
   "user_input", "query", "request", "content", "text",
   "user_context", "conversation_context"]

/-- A value stored in the `user_context` dict: either the Python list of
strings placed under `recent_user_messages`, or a value copied verbatim from
the input JSON by the allow-list loop. -/
inductive CtxVal where
  | messages (msgs : List String) : CtxVal
  | field (v : Json) : CtxVal

/-- Python `str()` of a list of strings (each element rendered by repr),
the shape the `recent_user_messages` value has. -/
def pyStrOfStrList (msgs : List String) : String :=
  "[" ++ String.intercalate ", " (msgs.map pyReprStr) ++ "]"

/-- `str(v)` for a context value. -/
def CtxVal.toPyStr : CtxVal → String
  | .messages msgs => pyStrOfStrList msgs
  | .field v => pyStr v

/-- Lines 108-115 of the source: when both `transcript_path` and
`session_id` are truthy, extract recent messages and store them (only when
non-empty) under the key `recent_user_messages`.  A non-string truthy
`transcript_path` makes `Path()` raise inside the extractor's broad `try`,
yielding no messages. -/
def transcriptContext (fs : String → Option (List TranscriptLine))
    (input_data : Json) : List (String × CtxVal) :=
  if pyTruthy ((input_data.getField "transcript_path").getD .null) &&
      pyTruthy ((input_data.getField "session_id").getD (.str "")) then
    match input_data.getField "transcript_path" with
    | some (.str p) =>
        let recent := extract_user_messages_from_transcript fs p
          (pyStr ((input_data.getField "session_id").getD (.str "")))
        if recent = [] then [] else [("recent_user_messages", CtxVal.messages recent)]
    | _ => []
  else []

/-- The allow-list loop of lines 117-126: copy every allow-listed field
present in the input, in allow-list order. -/
def fieldsContext (input_data : Json) : List (String × CtxVal) :=
  potential_user_fields.filterMap
    (fun f => (input_data.getField f).map (fun v => (f, CtxVal.field v)))

/-- `extract_user_context` (lines 96-128): the transcript-derived entry, if
any, followed by the copied allow-listed fields — the insertion order of the
Python dict. -/
def extract_user_context (fs : String → Option (List TranscriptLine))
    (input_data : Json) : List (String × CtxVal) :=
  transcriptContext fs input_data ++ fieldsContext input_data

/-- `create_log_entry` (lines 131-151): the context-summary line.  Each item
renders as `k: str(v)` with `str(v)` cut to its first 200 characters plus an
ellipsis when longer than 200; items are joined with a bar; an empty context
yields the no-context line.  `session_id[:8]` is the first 8 characters. -/
def create_log_entry (timestamp session_id tool_name : String)
    (user_context : List (String × CtxVal)) : String :=
  if !user_context.isEmpty then
    let context_str := String.intercalate " | " (user_context.map (fun kv =>
      if 200 < (CtxVal.toPyStr kv.2).length then
        kv.1 ++ ": " ++ (CtxVal.toPyStr kv.2).take 200 ++ "..."
      else
        kv.1 ++ ": " ++ CtxVal.toPyStr kv.2))
    "[" ++ timestamp ++ "] [" ++ session_id.take 8 ++ "] Tool: " ++ tool_name ++
      " | User Context: " ++ context_str ++ "\n"
  else
    "[" ++ timestamp ++ "] [" ++ session_id.take 8 ++ "] Tool: " ++ tool_name ++
      " | No user context detected\n"

/-- The persisted statistics file: absent, present but not parseable JSON,
or a parsed JSON document. -/
inductive StatsFile where
  | missing : StatsFile
  | corrupt : StatsFile
  | valid (content : Json) : StatsFile

/-- `stats_file.exists()` (line 187). -/
def statsFileExists : StatsFile → Bool
  | .missing => false
  | _ => true

/-- `json.load` on the statistics file (line 189): `none` models the
exception raised on unparseable content. -/
def readStats : StatsFile → Option Json
  | .valid j => some j
  | _ => none

/-- `json.dump` of the counters (lines 205-206): the file now holds this
document. -/
def writeStats (j : Json) : StatsFile := .valid j

/-- Python `v + 1` for a value read out of the stats JSON: integers succeed,
booleans are integers (`True` is 1), anything else raises `TypeError`, which
aborts the whole update (lines 208-210). -/
def pySucc : Json → Option Json
  | .num n => some (.num (n + 1))
  | .bool b => some (.num (if b then 2 else 1))
  | _ => none

/-- `d[k] = d.get(k, 0) + 1` on one dict level. -/
def bumpCounter (fields : List (String × Json)) (k : String) :
    Option (List (String × Json)) :=
  (pySucc ((lookupField fields k).getD (.num 0))).map (setField fields k)

/-- The dict stored under an outer key, defaulting to an empty dict when the
key is absent — the value of `stats.get(outer, ...)` in the cases where the
update proceeds. -/
def innerOf (fields : List (String × Json)) (outer : String) :
    List (String × Json) :=
  match lookupField fields outer with
  | some (.obj ds) => ds
  | _ => []

/-- Whether `stats.get(outer, ...)` supports `.get`: true when the key is
absent (default empty dict) or holds a dict; false values make the `.get`
call raise `AttributeError` and abort the update. -/
def outerIsDict (fields : List (String × Json)) (outer : String) : Bool :=
  match lookupField fields outer with
  | none => true
  | some (.obj _) => true
  | some _ => false

/-- `stats[outer] = stats.get(outer, ...)` followed by
`stats[outer][k] = stats[outer].get(k, 0) + 1` (lines 193-194 and 198-200);
`none` models the `AttributeError`/`TypeError` aborting the update. -/
def bumpNested (fields : List (String × Json)) (outer k : String) :
    Option (List (String × Json)) :=
  if outerIsDict fields outer then
    (bumpCounter (innerOf fields outer) k).map
      (fun ds => setField fields outer (.obj ds))
  else none

/-- Lines 192-200 of the source, on the loaded counters dict:  bump
`total_interactions`, bump `tools_triggered[tool_name]`, and when the
context mapping is truthy bump `interactions_with_context` and every
`context_fields_found[field]` for the context's keys, in order.  `none`
models the `TypeError`/`AttributeError` aborting the update. -/
def updateCounters (tool_name : String) (user_context : List (String × CtxVal))
    (fields : List (String × Json)) : Option (List (String × Json)) := do
  let f1 ← bumpCounter fields "total_interactions"
  let f2 ← bumpNested f1 "tools_triggered" tool_name
  if user_context.isEmpty then pure f2
  else do
    let g1 ← bumpCounter f2 "interactions_with_context"
    user_context.foldlM
      (fun acc kv => bumpNested acc "context_fields_found" kv.1) g1

/-- `update_statistics` (lines 172-210).  Returns the JSON document written
to the statistics file, or `none` when nothing is written: statistics
disabled, existing file unparseable (the `json.load` exception reaches the
broad handler before any write), loaded document not a dict, or a type error
while incrementing.  Non-string tool names are modelled by the string key
`json.dump` would emit for them; no claim exercises one. -/
def update_statistics (tool_name : String) (user_context : List (String × CtxVal))
    (file : StatsFile) : Option Json :=
  if !CONFIG.enable_statistics then none
  else
    match (if statsFileExists file then readStats file else some (.obj [])) with
    | some (.obj fields) => (updateCounters tool_name user_context fields).map Json.obj
    | _ => none

/-- The integer stored at a key of a counters dict, 0 when absent — the
`.get(k, 0)` view the increments use. -/
def countOf (fields : List (String × Json)) (k : String) : Int :=
  match lookupField fields k with
  | some (.num n) => n
  | _ => 0

/-- The integer stored at an inner key of a nested counters dict, 0 when
either level is absent. -/
def nestedCountOf (fields : List (String × Json)) (outer k : String) : Int :=
  countOf (innerOf fields outer) k

/-- The key holds an integer or is absent — the shapes on which the
increment succeeds and which the script itself writes. -/
def numOrAbsent (fields : List (String × Json)) (k : String) : Prop :=
  lookupField fields k = none ∨ ∃ n : Int, lookupField fields k = some (.num n)

/-- The files the script touches in one run, plus write oracles.  `fs` maps a
transcript path to its parsed lines (`none`: missing or unreadable); the two
logs are their lists of appended lines; each `canWrite` flag tells whether
the corresponding file operation succeeds, since the script swallows write
failures with a warning. -/
structure World where
  fs : String → Option (List TranscriptLine)
  statsFile : StatsFile
  mainLog : List String
  dailyLog : List String
  canWriteMain : Bool
  canWriteDaily : Bool
  canWriteStats : Bool

/-- `write_to_log_file` (lines 154-169): appends on success; on failure
prints a warning and leaves the file as it was. -/
def write_to_log_file (canWrite : Bool) (log : List String) (entry : String) :
    List String :=
  if canWrite then log ++ [entry] else log

/-- The outcome of one run: the process exit status and the final files. -/
structure RunResult where
  exitCode : Nat
  world : World

/-- The test `tool_name != 'unknown'` of line 230 on the raw JSON value. -/
def isUnknownTool : Json → Bool
  | .str s => s == "unknown"
  | _ => false

/-- `main` (lines 213-252).  `stdin` is the result of `json.load(sys.stdin)`
(`none`: `JSONDecodeError`, caught at line 246 — exit 1, nothing touched).
A non-dict payload makes `input_data.get` raise `AttributeError`; a non-string
`session_id` makes `session_id[:8]` raise `TypeError`; both reach the broad
handler of lines 249-252 before any file is touched — exit 0.  Otherwise the
entry is appended to both logs and the statistics are updated, and the
process exits 0 whatever those best-effort writes did. -/
def main (stdin : Option Json) (timestamp : String) (w : World) : RunResult :=
  match stdin with
  | none => ⟨1, w⟩
  | some input_data =>
      match input_data with
      | .obj _ =>
          let tool_name := (input_data.getField "tool_name").getD (.str "unknown")
          let session_id := (input_data.getField "session_id").getD (.str "unknown")
          let user_context := extract_user_context w.fs input_data
          if !user_context.isEmpty || !isUnknownTool tool_name then
            match session_id with
            | .str sid =>
                let entry := create_log_entry timestamp sid (pyStr tool_name) user_context
                let mainLog := write_to_log_file w.canWriteMain w.mainLog entry
                let dailyLog :=
                  if CONFIG.enable_daily_logs then
                    write_to_log_file w.canWriteDaily w.dailyLog entry
                  else w.dailyLog
                let statsFile :=
                  if w.canWriteStats then
                    match update_statistics (pyStr tool_name) user_context w.statsFile with
                    | some j => writeStats j
                    | none => w.statsFile
                  else w.statsFile
                ⟨0, ⟨w.fs, statsFile, mainLog, dailyLog,
                     w.canWriteMain, w.canWriteDaily, w.canWriteStats⟩⟩
            | _ => ⟨0, w⟩
          else ⟨0, w⟩
      | _ => ⟨0, w⟩

/-! ### Helper lemmas about the extractor -/

/-- A transcript entry carrying an ordinary qualifying user message, used by
several concrete instantiations below. -/
def sampleUserEntry : Json :=
  .obj [("type", .str "user"),
        ("message", .obj [("content", .str "Please refactor the parser module")])]

/-- A world with no transcript files, no statistics file, empty logs and all
writes succeeding, used by concrete instantiations. -/
def emptyWorld : World :=
  ⟨fun _ => none, .missing, [], [], true, true, true⟩

/-- A file system on which every path is a transcript holding one qualifying
user entry. -/
def sampleFs : String → Option (List TranscriptLine) :=
  fun _ => some [some sampleUserEntry]

/-- The input event of the end-to-end scenario of the spec. -/
def scenarioEvent : Json :=
  .obj [("tool_name", .str "Bash"),
        ("session_id", .str "abc12345-1111-2222-3333-444444444444"),
        ("transcript_path", .str "t.jsonl")]

/-- The starting world of the end-to-end scenario: `t.jsonl` holds one user
entry whose content is `Please refactor the parser module`; both logs
already hold one line; the statistics file holds prior counters; all writes
succeed. -/
def scenarioWorld : World :=
  ⟨fun p => if p = "t.jsonl" then some [some sampleUserEntry] else none,
   .valid (.obj [("total_interactions", .num 5),
                 ("tools_triggered", .obj [("Bash", .num 2), ("Edit", .num 1)])]),
   ["old entry\n"], ["old entry\n"], true, true, true⟩

/-- The line the run of the end-to-end scenario appends to both logs. -/
def scenarioLine : String :=
  "[2026-10-12 10:00:00] [abc12345] Tool: Bash | User Context: " ++
    "recent_user_messages: ['Please refactor the parser module']\n"

theorem processEntry_passes {e : Json} {s : String} (h : processEntry e = some s) :
    passesFilters s = true := by
  unfold processEntry at h
  split at h
  case h_1 raw heq =>
    split at h
    case isTrue hp =>
      have hs := Option.some.inj h
      exact hs ▸ hp
    case isFalse hp => exact absurd h (by simp)
  case h_2 => exact absurd h (by simp)

theorem mem_qualifying_passes {lines : List TranscriptLine} {s : String}
    (h : s ∈ qualifyingMessages lines) : passesFilters s = true := by
  unfold qualifyingMessages at h
  rw [List.mem_filterMap] at h
  obtain ⟨l, _, hl⟩ := h
  match l with
  | none => exact absurd hl (by simp)
  | some j => exact processEntry_passes hl

theorem mem_extractFromLines_passes {lines : List TranscriptLine} {s : String}
    (h : s ∈ extractFromLines lines) : passesFilters s = true :=
  mem_qualifying_passes (List.mem_of_mem_drop h)

theorem mem_extract_passes {fs : String → Option (List TranscriptLine)}
    {p sid : String} {s : String}
    (h : s ∈ extract_user_messages_from_transcript fs p sid) :
    passesFilters s = true := by
  unfold extract_user_messages_from_transcript at h
  split at h
  case h_1 => exact absurd h (by simp)
  case h_2 lines heq => exact mem_extractFromLines_passes h

theorem passesFilters_length {s : String} (h : passesFilters s = true) :
    10 ≤ s.length := by
  have := (Bool.and_eq_true _ _).mp h
  exact of_decide_eq_true this.2

theorem passesFilters_not_marker {s : String} (h : passesFilters s = true) :
    strStartsWith s "<command-" = false ∧
    strStartsWith s "Stop hook feedback" = false ∧
    strStartsWith s "[Request interrupted" = false ∧
    strStartsWith s "Caveat:" = false := by
  simp only [passesFilters, Bool.and_eq_true, Bool.not_eq_true'] at h
  exact ⟨h.1.1.1.1, h.1.1.1.2, h.1.1.2, h.1.2⟩

/-! ### Claims about the extractor -/

/-- Claim C1: for every transcript file,
`extract_user_messages_from_transcript` returns at most 3 messages; it
considers only the last 20 lines of the file regardless of its total length
(any earlier lines can be replaced or removed without changing the result);
and when more than 3 qualifying messages exist it returns exactly the last 3
of them in order of appearance — the result is a length-3 suffix of the list
of qualifying messages. -/
theorem claim_C1 :
    (∀ fs p sid, (extract_user_messages_from_transcript fs p sid).length ≤ 3) ∧
    (∀ pre lines, lines.length = CONFIG.max_transcript_lines →
      extractFromLines (pre ++ lines) = extractFromLines lines) ∧
    (∀ lines, 3 < (qualifyingMessages lines).length →
      (extractFromLines lines).length = 3 ∧
      ∃ earlier, qualifyingMessages lines = earlier ++ extractFromLines lines) := by
  refine ⟨?_, ?_, ?_⟩
  · intro fs p sid
    unfold extract_user_messages_from_transcript
    split
    · simp
    · unfold extractFromLines
      rw [List.length_drop]
      have h3 : CONFIG.max_messages_per_capture = 3 := rfl
      omega
  · intro pre lines hlen
    have hq : qualifyingMessages (pre ++ lines) = qualifyingMessages lines := by
      unfold qualifyingMessages
      have h1 : (pre ++ lines).length - CONFIG.max_transcript_lines = pre.length := by
        rw [List.length_append, hlen]
        omega
      have h2 : lines.length - CONFIG.max_transcript_lines = 0 := by omega
      rw [h1, h2, List.drop_left, List.drop_zero]
    unfold extractFromLines
    rw [hq]
  · intro lines hlen
    constructor
    · unfold extractFromLines
      rw [List.length_drop]
      have h3 : CONFIG.max_messages_per_capture = 3 := rfl
      omega
    · exact ⟨(qualifyingMessages lines).take ((qualifyingMessages lines).length - 3),
        (List.take_append_drop _ _).symm⟩

/-- Claim C1 witness: instantiation at concrete transcripts.  A transcript of
25 lines whose first 5 hold qualifying messages and whose last 20 are
unparseable yields no messages (only the last 20 lines are scanned), and a
transcript with 5 qualifying messages yields the last 3. -/
theorem claim_C1_witness :
    extractFromLines
        (List.replicate 5 (some sampleUserEntry) ++ List.replicate 20 (none : TranscriptLine)) =
      extractFromLines (List.replicate 20 (none : TranscriptLine)) ∧
    (extractFromLines (List.replicate 5 (some sampleUserEntry))).length = 3 := by
  constructor
  · exact claim_C1.2.1 (List.replicate 5 (some sampleUserEntry))
      (List.replicate 20 none) (by rfl)
  · exact (claim_C1.2.2 (List.replicate 5 (some sampleUserEntry)) (by decide)).1

/-- Claim C2: no string shorter than 10 characters is ever an element of the
extractor's result, hence an entry whose message content is shorter than 10
characters never contributes its text (trimmed or not, both being shorter
than 10) to the returned list. -/
theorem claim_C2 (fs : String → Option (List TranscriptLine)) (p sid : String)
    (s : String) (h : s.length < 10) :
    s ∉ extract_user_messages_from_transcript fs p sid := by
  intro hmem
  exact absurd (passesFilters_length (mem_extract_passes hmem)) (by omega)

/-- Claim C2 witness: the 5-character string `hello` is not among the
messages extracted from a transcript whose only entry carries it as
content. -/
theorem claim_C2_witness :
    "hello" ∉ extract_user_messages_from_transcript
      (fun _ => some [some (Json.obj [("type", Json.str "user"),
        ("message", Json.obj [("content", Json.str "hello")])])])
      "t.jsonl" "abc" :=
  claim_C2 _ "t.jsonl" "abc" "hello" (by decide)

/-- Claim C3: a string starting with `<command-`, `Stop hook feedback`,
`[Request interrupted` or `Caveat:` is never an element of the extractor's
result, whatever its length — so an entry whose trimmed text starts with one
of these markers never contributes it to the returned list. -/
theorem claim_C3 (fs : String → Option (List TranscriptLine)) (p sid : String)
    (s : String)
    (h : strStartsWith s "<command-" = true ∨
      strStartsWith s "Stop hook feedback" = true ∨
      strStartsWith s "[Request interrupted" = true ∨
      strStartsWith s "Caveat:" = true) :
    s ∉ extract_user_messages_from_transcript fs p sid := by
  intro hmem
  have hm := passesFilters_not_marker (mem_extract_passes hmem)
  rcases h with h | h | h | h
  · rw [hm.1] at h; cases h
  · rw [hm.2.1] at h; cases h
  · rw [hm.2.2.1] at h; cases h
  · rw [hm.2.2.2] at h; cases h

/-- Claim C3 witness: the long string `Caveat: the messages below were
generated` is not among the messages extracted from a transcript whose only
entry carries it as content. -/
theorem claim_C3_witness :
    "Caveat: the messages below were generated" ∉
      extract_user_messages_from_transcript
        (fun _ => some [some (Json.obj [("type", Json.str "user"),
          ("message", Json.obj
            [("content", Json.str "Caveat: the messages below were generated")])])])
        "t.jsonl" "abc" :=
  claim_C3 _ "t.jsonl" "abc" _ (Or.inr (Or.inr (Or.inr (by decide))))

/-- Claim C4: the candidate text of a user-type entry is computed from
`message.content` by cases — a string content is used directly; a non-empty
list content contributes its first element's `text` field when that element
is a dict, the empty string when that field is absent, and the element's
stringification when it is not a dict. -/
theorem claim_C4 :
    (∀ s, textContentOf (.str s) = .str s) ∧
    (∀ fields rest, textContentOf (.arr (.obj fields :: rest)) =
      (lookupField fields "text").getD (.str "")) ∧
    (∀ fields rest, lookupField fields "text" = none →
      textContentOf (.arr (.obj fields :: rest)) = .str "") ∧
    (∀ first rest, (∀ fields, first ≠ .obj fields) →
      textContentOf (.arr (first :: rest)) = .str (pyStr first)) := by
  refine ⟨fun s => rfl, fun fields rest => rfl, ?_, ?_⟩
  · intro fields rest h
    rw [show textContentOf (.arr (.obj fields :: rest)) =
      (lookupField fields "text").getD (.str "") from rfl, h]
    rfl
  · intro first rest h
    cases first with
    | obj fields => exact absurd rfl (h fields)
    | null => rfl
    | bool b => rfl
    | num n => rfl
    | str s => rfl
    | arr es => rfl

/-- Claim C4 witness: instantiation at concrete contents — a dict first
element without a `text` field gives the empty string, and a number first
element gives its stringification. -/
theorem claim_C4_witness :
    textContentOf (.arr [Json.obj [("type", Json.str "image")]]) = .str "" ∧
    textContentOf (.arr [Json.num 7]) = .str (pyStr (Json.num 7)) :=
  ⟨claim_C4.2.2.1 [("type", Json.str "image")] [] (by rfl),
   claim_C4.2.2.2 (Json.num 7) [] (fun fields h => Json.noConfusion h)⟩

/-! ### Claims about the run as a whole -/

theorem main_some_exitCode (j : Json) (timestamp : String) (w : World) :
    (main (some j) timestamp w).exitCode = 0 := by
  cases j with
  | obj fields =>
      simp only [main]
      split
      · split <;> rfl
      · rfl
  | null => rfl
  | bool b => rfl
  | num n => rfl
  | str s => rfl
  | arr es => rfl

/-- Claim C5: the process exits with status 1 exactly when the standard-input
payload is not valid JSON (`stdin = none`), and in that case the world —
every file the script can touch — is unchanged; a run whose input parsed,
whatever else fails in it (modelled by the write oracles, the file-system
map and the statistics file state, over which the statement quantifies),
exits with status 0. -/
theorem claim_C5 (stdin : Option Json) (timestamp : String) (w : World) :
    ((main stdin timestamp w).exitCode = 1 ↔ stdin = none) ∧
    (stdin = none → (main stdin timestamp w).world = w) := by
  cases stdin with
  | none => exact ⟨⟨fun _ => rfl, fun _ => rfl⟩, fun _ => rfl⟩
  | some j =>
      refine ⟨⟨fun h => ?_, fun h => Option.noConfusion h⟩,
        fun h => Option.noConfusion h⟩
      rw [main_some_exitCode] at h
      exact absurd h (by decide)

/-- Claim C5 witness: a malformed standard input against the empty world
exits 1 and leaves the world untouched; the same world with a parseable
input exits 0. -/
theorem claim_C5_witness :
    (main none "2026-10-12 10:00:00" emptyWorld).exitCode = 1 ∧
    (main none "2026-10-12 10:00:00" emptyWorld).world = emptyWorld ∧
    ((main (some (.obj [])) "2026-10-12 10:00:00" emptyWorld).exitCode = 1 ↔
      (some (Json.obj []) : Option Json) = none) :=
  ⟨(claim_C5 none "2026-10-12 10:00:00" emptyWorld).1.mpr rfl,
   (claim_C5 none "2026-10-12 10:00:00" emptyWorld).2 rfl,
   (claim_C5 (some (.obj [])) "2026-10-12 10:00:00" emptyWorld).1⟩

/-- Claim C6: `create_log_entry` renders a non-empty context mapping as
`[timestamp] [first 8 characters of the session id] Tool: tool | User
Context: k1: v1 | k2: v2 ...`, each value stringified and cut to its first
200 characters followed by `...` exactly when its string form is longer than
200 characters, and renders an empty context mapping as the corresponding
`No user context detected` line. -/
theorem claim_C6 (timestamp session_id tool_name : String)
    (ctx : List (String × CtxVal)) :
    (ctx ≠ [] → create_log_entry timestamp session_id tool_name ctx =
      "[" ++ timestamp ++ "] [" ++ session_id.take 8 ++ "] Tool: " ++ tool_name ++
        " | User Context: " ++
        String.intercalate " | " (ctx.map (fun kv =>
          if 200 < (CtxVal.toPyStr kv.2).length then
            kv.1 ++ ": " ++ (CtxVal.toPyStr kv.2).take 200 ++ "..."
          else kv.1 ++ ": " ++ CtxVal.toPyStr kv.2)) ++ "\n") ∧
    (ctx = [] → create_log_entry timestamp session_id tool_name ctx =
      "[" ++ timestamp ++ "] [" ++ session_id.take 8 ++ "] Tool: " ++ tool_name ++
        " | No user context detected\n") := by
  constructor
  · intro h
    cases ctx with
    | nil => exact absurd rfl h
    | cons kv rest => rfl
  · intro h
    rw [h]
    rfl

set_option maxRecDepth 8192 in
/-- Claim C6 witness: a short value is rendered verbatim; a 250-character
value is cut to 200 characters plus the ellipsis; an empty mapping gives the
no-context line. -/
theorem claim_C6_witness :
    create_log_entry "2026-10-12 10:00:00" "abc12345-9999" "Bash"
        [("prompt", CtxVal.field (Json.str "hi"))] =
      "[2026-10-12 10:00:00] [abc12345] Tool: Bash | User Context: prompt: hi\n" ∧
    create_log_entry "t" "s" "B"
        [("k", CtxVal.field (Json.str (String.mk (List.replicate 250 'a'))))] =
      "[t] [s] Tool: B | User Context: k: " ++
        String.mk (List.replicate 200 'a') ++ "...\n" ∧
    create_log_entry "t" "s" "B" [] = "[t] [s] Tool: B | No user context detected\n" := by
  refine ⟨?_, ?_, ?_⟩
  · rw [(claim_C6 "2026-10-12 10:00:00" "abc12345-9999" "Bash"
      [("prompt", CtxVal.field (Json.str "hi"))]).1 (by simp)]
    rfl
  · rw [(claim_C6 "t" "s" "B"
      [("k", CtxVal.field (Json.str (String.mk (List.replicate 250 'a'))))]).1 (by simp)]
    rfl
  · exact (claim_C6 "t" "s" "B" []).2 rfl

/-- Claim C10: when the input event's `session_id` is absent or the empty
string, the assembled context is independent of the transcript file system —
the transcript is never read — and contains no `recent_user_messages` key,
even when `transcript_path` names a readable transcript full of qualifying
messages; and more generally the transcript is only consulted when both
`transcript_path` and `session_id` are truthy (present and non-empty). -/
theorem claim_C10 :
    (∀ (fields : List (String × Json))
      (fs1 fs2 : String → Option (List TranscriptLine)),
      (lookupField fields "session_id" = none ∨
        lookupField fields "session_id" = some (.str "")) →
      extract_user_context fs1 (.obj fields) = extract_user_context fs2 (.obj fields) ∧
      ∀ v, ("recent_user_messages", v) ∉ extract_user_context fs1 (.obj fields)) ∧
    (∀ (j : Json) (fs1 fs2 : String → Option (List TranscriptLine)),
      (pyTruthy ((j.getField "transcript_path").getD .null) = false ∨
        pyTruthy ((j.getField "session_id").getD (.str "")) = false) →
      extract_user_context fs1 j = extract_user_context fs2 j) := by
  have hTr : ∀ (j : Json) (fs : String → Option (List TranscriptLine)),
      (pyTruthy ((j.getField "transcript_path").getD .null) = false ∨
        pyTruthy ((j.getField "session_id").getD (.str "")) = false) →
      transcriptContext fs j = [] := by
    intro j fs h
    unfold transcriptContext
    rcases h with h | h <;> rw [h] <;> simp
  have hGen : ∀ (j : Json) (fs1 fs2 : String → Option (List TranscriptLine)),
      (pyTruthy ((j.getField "transcript_path").getD .null) = false ∨
        pyTruthy ((j.getField "session_id").getD (.str "")) = false) →
      extract_user_context fs1 j = extract_user_context fs2 j := by
    intro j fs1 fs2 h
    unfold extract_user_context
    rw [hTr j fs1 h, hTr j fs2 h]
  refine ⟨?_, hGen⟩
  intro fields fs1 fs2 h
  have hsid : pyTruthy (((Json.obj fields).getField "session_id").getD (.str "")) = false := by
    rcases h with h | h <;> simp [Json.getField, h, pyTruthy]
  refine ⟨hGen _ fs1 fs2 (Or.inr hsid), ?_⟩
  intro v hmem
  rw [extract_user_context, hTr _ fs1 (Or.inr hsid), List.nil_append] at hmem
  unfold fieldsContext at hmem
  rw [List.mem_filterMap] at hmem
  obtain ⟨f, hf, hfv⟩ := hmem
  rcases hmap : ((Json.obj fields).getField f) with _ | v'
  · rw [hmap] at hfv; cases hfv
  · rw [hmap] at hfv
    have : f = "recent_user_messages" := congrArg Prod.fst (Option.some.inj hfv)
    rw [this] at hf
    exact absurd hf (by decide)

/-- Claim C10 witness: with an empty `session_id` and a readable transcript
holding a qualifying message, the context equals the one computed with no
transcript at all and has no `recent_user_messages` key. -/
theorem claim_C10_witness :
    extract_user_context sampleFs
        (.obj [("transcript_path", Json.str "t.jsonl"), ("session_id", Json.str "")]) =
      extract_user_context (fun _ => none)
        (.obj [("transcript_path", Json.str "t.jsonl"), ("session_id", Json.str "")]) ∧
    ∀ v, ("recent_user_messages", v) ∉ extract_user_context sampleFs
      (.obj [("transcript_path", Json.str "t.jsonl"), ("session_id", Json.str "")]) :=
  claim_C10.1 [("transcript_path", Json.str "t.jsonl"), ("session_id", Json.str "")]
    sampleFs (fun _ => none) (Or.inr rfl)

/-! ### Claims about the statistics file -/

/-- Claim C8 counterexample: with a corrupt statistics file, a run does not
write a fresh counters state — `update_statistics` performs no write at all
(the `json.load` exception reaches the broad handler before the write), in
contrast with a missing file, where a fresh state is written. -/
theorem claim_C8_counterexample :
    update_statistics "Bash" [] StatsFile.corrupt = none ∧
    update_statistics "Bash" [] StatsFile.missing =
      some (.obj [("total_interactions", .num 1),
        ("tools_triggered", .obj [("Bash", .num 1)])]) :=
  ⟨rfl, rfl⟩

/-- Claim C8 (amended): writing the statistics file and reading it back
yields the same document; when the persisted file is missing, the next
update starts from a fresh, empty counters state and writes it; when the
file is present but corrupt (not parseable JSON), the update is skipped
entirely — nothing is written and the file is left as it was — and in
neither case does the run fail. -/
theorem claim_C8 :
    (∀ j : Json, readStats (writeStats j) = some j) ∧
    (∀ tool ctx, update_statistics tool ctx .missing =
      update_statistics tool ctx (.valid (.obj []))) ∧
    (∀ tool ctx, update_statistics tool ctx .corrupt = none) :=
  ⟨fun _ => rfl, fun _ _ => rfl, fun _ _ => rfl⟩

/-! ### The end-to-end scenario -/

/-- Claim C9 counterexample: in the end-to-end scenario the single line
appended to the global log is the context-summary line, which does not match
`[<timestamp>] [abc12345] Please refactor the parser module` for any
timestamp — the code logs the whole context mapping, not the bare message. -/
theorem claim_C9_counterexample :
    (main (some scenarioEvent) "2026-10-12 10:00:00" scenarioWorld).world.mainLog =
      scenarioWorld.mainLog ++ [scenarioLine] ∧
    ¬ ∃ ts : String,
      scenarioLine = "[" ++ ts ++ "] [abc12345] Please refactor the parser module\n" := by
  refine ⟨rfl, ?_⟩
  rintro ⟨ts, h⟩
  have h2 := congrArg (fun s : String => s.data.reverse.take 2) h
  simp only [String.data_append, List.reverse_append, List.append_assoc] at h2
  rw [List.take_append_of_le_length (by decide)] at h2
  exact absurd h2 (by decide)

/-- Claim C9 (amended): for the scenario input event, with `t.jsonl`'s last
line the user entry carrying `Please refactor the parser module`, exactly
one new line is appended to both the global and the daily log, namely the
context-summary line `[<timestamp>] [abc12345] Tool: Bash | User Context:
recent_user_messages: ['Please refactor the parser module']`, and the
statistics file's `total_interactions` and `tools_triggered.Bash` are each
incremented by 1 (together with `interactions_with_context` and
`context_fields_found.recent_user_messages`, which the code also bumps). -/
theorem claim_C9 :
    (main (some scenarioEvent) "2026-10-12 10:00:00" scenarioWorld).exitCode = 0 ∧
    (main (some scenarioEvent) "2026-10-12 10:00:00" scenarioWorld).world.mainLog =
      scenarioWorld.mainLog ++ [scenarioLine] ∧
    (main (some scenarioEvent) "2026-10-12 10:00:00" scenarioWorld).world.dailyLog =
      scenarioWorld.dailyLog ++ [scenarioLine] ∧
    (main (some scenarioEvent) "2026-10-12 10:00:00" scenarioWorld).world.statsFile =
      .valid (.obj [("total_interactions", .num 6),
        ("tools_triggered", .obj [("Bash", .num 3), ("Edit", .num 1)]),
        ("interactions_with_context", .num 1),
        ("context_fields_found", .obj [("recent_user_messages", .num 1)])]) :=
  ⟨rfl, rfl, rfl, rfl⟩

/-! ### Dict-update lemmas for the statistics counters -/

theorem lookupField_setField_self (fs : List (String × Json)) (k : String) (v : Json) :
    lookupField (setField fs k v) k = some v := by
  induction fs with
  | nil => simp [setField, lookupField]
  | cons kv rest ih =>
      obtain ⟨k0, v0⟩ := kv
      by_cases h : k0 = k
      · simp [setField, h, lookupField]
      · simp [setField, h, lookupField, ih]

theorem lookupField_setField_ne (fs : List (String × Json)) (k k' : String) (v : Json)
    (h : k' ≠ k) : lookupField (setField fs k v) k' = lookupField fs k' := by
  induction fs with
  | nil =>
      have h' : ¬ k = k' := fun he => h he.symm
      simp [setField, lookupField, h']
  | cons kv rest ih =>
      obtain ⟨k0, v0⟩ := kv
      by_cases h0 : k0 = k
      · subst h0
        have h' : ¬ k0 = k' := fun he => h he.symm
        simp [setField, lookupField, h']
      · simp only [setField, if_neg h0, lookupField]
        split
        · rfl
        · exact ih

theorem countOf_congr {fs1 fs2 : List (String × Json)} {k : String}
    (h : lookupField fs1 k = lookupField fs2 k) : countOf fs1 k = countOf fs2 k := by
  unfold countOf
  rw [h]

theorem innerOf_congr {fs1 fs2 : List (String × Json)} {outer : String}
    (h : lookupField fs1 outer = lookupField fs2 outer) :
    innerOf fs1 outer = innerOf fs2 outer := by
  unfold innerOf
  rw [h]

theorem outerIsDict_congr {fs1 fs2 : List (String × Json)} {outer : String}
    (h : lookupField fs1 outer = lookupField fs2 outer) :
    outerIsDict fs1 outer = outerIsDict fs2 outer := by
  unfold outerIsDict
  rw [h]

theorem numOrAbsent_congr {fs1 fs2 : List (String × Json)} {k : String}
    (h : lookupField fs1 k = lookupField fs2 k) :
    numOrAbsent fs1 k ↔ numOrAbsent fs2 k := by
  unfold numOrAbsent
  rw [h]

theorem countOf_setField_self (fs : List (String × Json)) (k : String) (m : Int) :
    countOf (setField fs k (.num m)) k = m := by
  simp [countOf, lookupField_setField_self]

theorem countOf_setField_ne (fs : List (String × Json)) (k k' : String) (v : Json)
    (h : k' ≠ k) : countOf (setField fs k v) k' = countOf fs k' :=
  countOf_congr (lookupField_setField_ne fs k k' v h)

theorem innerOf_setField_self (fs : List (String × Json)) (outer : String)
    (ds : List (String × Json)) :
    innerOf (setField fs outer (.obj ds)) outer = ds := by
  simp [innerOf, lookupField_setField_self]

theorem outerIsDict_setField_self (fs : List (String × Json)) (outer : String)
    (ds : List (String × Json)) :
    outerIsDict (setField fs outer (.obj ds)) outer = true := by
  simp [outerIsDict, lookupField_setField_self]

theorem numOrAbsent_setField_ne {fs : List (String × Json)} {k : String} (k0 : String)
    (v : Json) (h : k ≠ k0) (hn : numOrAbsent fs k) :
    numOrAbsent (setField fs k0 v) k :=
  (numOrAbsent_congr (lookupField_setField_ne fs k0 k v h)).mpr hn

theorem bumpCounter_eq {fs : List (String × Json)} {k : String}
    (h : numOrAbsent fs k) :
    bumpCounter fs k = some (setField fs k (.num (countOf fs k + 1))) := by
  rcases h with h | ⟨n, h⟩ <;> simp [bumpCounter, countOf, h, pySucc]

theorem bumpNested_eq {fs : List (String × Json)} {outer k : String}
    (h1 : outerIsDict fs outer = true)
    (h2 : numOrAbsent (innerOf fs outer) k) :
    bumpNested fs outer k = some (setField fs outer
      (.obj (setField (innerOf fs outer) k
        (.num (nestedCountOf fs outer k + 1))))) := by
  simp [bumpNested, h1, bumpCounter_eq h2, nestedCountOf]

/-- One step of the `context_fields_found` loop, packaged through the facts
the induction needs. -/
theorem bumpNested_step {fs : List (String × Json)} {outer k : String}
    (h1 : outerIsDict fs outer = true)
    (h2 : numOrAbsent (innerOf fs outer) k) :
    ∃ fs1, bumpNested fs outer k = some fs1 ∧
      innerOf fs1 outer = setField (innerOf fs outer) k
        (.num (nestedCountOf fs outer k + 1)) ∧
      outerIsDict fs1 outer = true ∧
      ∀ k', k' ≠ outer → lookupField fs1 k' = lookupField fs k' :=
  ⟨_, bumpNested_eq h1 h2, innerOf_setField_self _ _ _,
   outerIsDict_setField_self _ _ _,
   fun k' h => lookupField_setField_ne _ _ _ _ h⟩

/-- The `context_fields_found` loop of lines 199-200: with distinct context
keys whose stored counts are integers or absent, the loop succeeds, adds 1
to each key's count, and changes nothing else. -/
theorem foldCtx (ctx : List (String × CtxVal)) :
    ∀ fs : List (String × Json),
    (ctx.map Prod.fst).Nodup →
    outerIsDict fs "context_fields_found" = true →
    (∀ k ∈ ctx.map Prod.fst, numOrAbsent (innerOf fs "context_fields_found") k) →
    ∃ fs', ctx.foldlM
        (fun acc kv => bumpNested acc "context_fields_found" kv.1) fs = some fs' ∧
      (∀ k ∈ ctx.map Prod.fst, nestedCountOf fs' "context_fields_found" k =
        nestedCountOf fs "context_fields_found" k + 1) ∧
      (∀ k, k ∉ ctx.map Prod.fst → nestedCountOf fs' "context_fields_found" k =
        nestedCountOf fs "context_fields_found" k) ∧
      (∀ k', k' ≠ "context_fields_found" → lookupField fs' k' = lookupField fs k') := by
  induction ctx with
  | nil =>
      intro fs _ _ _
      exact ⟨fs, rfl, by simp, fun _ _ => rfl, fun _ _ => rfl⟩
  | cons kv rest ih =>
      intro fs hnd hdict hnum
      obtain ⟨k0, v0⟩ := kv
      rw [List.map_cons, List.nodup_cons] at hnd
      obtain ⟨hk0, hnd'⟩ := hnd
      obtain ⟨fs1, hb1, hA, hB, hC⟩ :=
        bumpNested_step hdict (hnum k0 (by simp))
      have hnum1 : ∀ k ∈ rest.map Prod.fst,
          numOrAbsent (innerOf fs1 "context_fields_found") k := by
        intro k hk
        have hkne : k ≠ k0 := fun he => hk0 (he ▸ hk)
        rw [hA]
        exact numOrAbsent_setField_ne _ _ hkne (hnum k (by simp [hk]))
      obtain ⟨fs', hfold, hmem, hnotmem, hother⟩ := ih fs1 hnd' hB hnum1
      have hcount1self : nestedCountOf fs1 "context_fields_found" k0 =
          nestedCountOf fs "context_fields_found" k0 + 1 := by
        rw [nestedCountOf, hA, countOf_setField_self]
      have hcount1ne : ∀ k, k ≠ k0 → nestedCountOf fs1 "context_fields_found" k =
          nestedCountOf fs "context_fields_found" k := by
        intro k hkne
        rw [nestedCountOf, hA, countOf_setField_ne _ _ _ _ hkne]
        rfl
      refine ⟨fs', ?_, ?_, ?_, ?_⟩
      · show (bumpNested fs "context_fields_found" k0).bind _ = some fs'
        rw [hb1]
        exact hfold
      · intro k hk
        rcases (by simpa using hk : k = k0 ∨ k ∈ rest.map Prod.fst) with rfl | hk'
        · rw [hnotmem k hk0, hcount1self]
        · have hkne : k ≠ k0 := fun he => hk0 (he ▸ hk')
          rw [hmem k hk', hcount1ne k hkne]
      · intro k hk
        have hk0' : k ≠ k0 := fun he => hk (by simp [he])
        have hkrest : k ∉ rest.map Prod.fst := fun hm => hk (by simp [hm])
        rw [hnotmem k hkrest, hcount1ne k hk0']
      · intro k' hne
        rw [hother k' hne, hC k' hne]

/-- One successful flat-counter increment, packaged through the facts the
main statistics theorem needs. -/
theorem bumpCounter_step {fs : List (String × Json)} {k : String}
    (h : numOrAbsent fs k) :
    ∃ fs1, bumpCounter fs k = some fs1 ∧
      countOf fs1 k = countOf fs k + 1 ∧
      ∀ k', k' ≠ k → lookupField fs1 k' = lookupField fs k' :=
  ⟨_, bumpCounter_eq h, countOf_setField_self _ _ _,
   fun k' h' => lookupField_setField_ne _ _ _ _ h'⟩

/-- One successful nested-counter increment, packaged through counts. -/
theorem bumpNested_step2 {fs : List (String × Json)} {outer k : String}
    (h1 : outerIsDict fs outer = true)
    (h2 : numOrAbsent (innerOf fs outer) k) :
    ∃ fs1, bumpNested fs outer k = some fs1 ∧
      nestedCountOf fs1 outer k = nestedCountOf fs outer k + 1 ∧
      (∀ k', k' ≠ k → nestedCountOf fs1 outer k' = nestedCountOf fs outer k') ∧
      ∀ k', k' ≠ outer → lookupField fs1 k' = lookupField fs k' := by
  obtain ⟨fs1, hb, hA, hB, hC⟩ := bumpNested_step h1 h2
  refine ⟨fs1, hb, ?_, ?_, hC⟩
  · rw [nestedCountOf, hA, countOf_setField_self]
  · intro k' hk
    rw [nestedCountOf, hA, countOf_setField_ne _ _ _ _ hk]
    rfl

/-- Claim C7: on a run that produced loggable content, `update_statistics` —
started from a well-formed counters state (the file missing, or holding a
counters dict whose touched entries are integers or absent) — succeeds and
writes a state in which `total_interactions` grew by exactly 1,
`tools_triggered[tool]` grew by exactly 1, and, when the context mapping is
non-empty, `interactions_with_context` grew by 1 and
`context_fields_found[k]` grew by 1 for every context key `k`; missing
counters start from 0 (the `+ 1` is against the absent-as-0 reading), and no
other counter changes: other tools' triggers, other context fields' counts,
`interactions_with_context` and `context_fields_found` on a context-less
run, and every key outside the four touched ones are all left exactly as
they were. -/
theorem claim_C7 (tool : String) (ctx : List (String × CtxVal))
    (fields : List (String × Json)) (st : StatsFile)
    (hst : st = StatsFile.valid (.obj fields) ∨
      (st = StatsFile.missing ∧ fields = []))
    (hti : numOrAbsent fields "total_interactions")
    (htt : outerIsDict fields "tools_triggered" = true)
    (htool : numOrAbsent (innerOf fields "tools_triggered") tool)
    (hiwc : ctx ≠ [] → numOrAbsent fields "interactions_with_context")
    (hcff : ctx ≠ [] → outerIsDict fields "context_fields_found" = true)
    (hkeys : ∀ k ∈ ctx.map Prod.fst,
      numOrAbsent (innerOf fields "context_fields_found") k)
    (hnd : (ctx.map Prod.fst).Nodup) :
    ∃ fields', update_statistics tool ctx st = some (.obj fields') ∧
      countOf fields' "total_interactions" =
        countOf fields "total_interactions" + 1 ∧
      nestedCountOf fields' "tools_triggered" tool =
        nestedCountOf fields "tools_triggered" tool + 1 ∧
      (∀ t', t' ≠ tool → nestedCountOf fields' "tools_triggered" t' =
        nestedCountOf fields "tools_triggered" t') ∧
      (ctx ≠ [] →
        countOf fields' "interactions_with_context" =
          countOf fields "interactions_with_context" + 1 ∧
        ∀ k ∈ ctx.map Prod.fst,
          nestedCountOf fields' "context_fields_found" k =
            nestedCountOf fields "context_fields_found" k + 1) ∧
      (ctx = [] →
        countOf fields' "interactions_with_context" =
          countOf fields "interactions_with_context" ∧
        lookupField fields' "context_fields_found" =
          lookupField fields "context_fields_found") ∧
      (∀ k, k ∉ ctx.map Prod.fst →
        nestedCountOf fields' "context_fields_found" k =
          nestedCountOf fields "context_fields_found" k) ∧
      (∀ k, k ∉ ["total_interactions", "tools_triggered",
          "interactions_with_context", "context_fields_found"] →
        lookupField fields' k = lookupField fields k) := by
  have hred : update_statistics tool ctx st =
      (updateCounters tool ctx fields).map Json.obj := by
    rcases hst with rfl | ⟨rfl, rfl⟩ <;> rfl
  obtain ⟨f1, hb1, hf1count, hf1look⟩ := bumpCounter_step hti
  have h1tt : outerIsDict f1 "tools_triggered" = true := by
    rw [outerIsDict_congr (hf1look "tools_triggered" (by decide))]
    exact htt
  have hf1ttinner : innerOf f1 "tools_triggered" = innerOf fields "tools_triggered" :=
    innerOf_congr (hf1look "tools_triggered" (by decide))
  have h1tool : numOrAbsent (innerOf f1 "tools_triggered") tool := by
    rw [hf1ttinner]
    exact htool
  obtain ⟨f2, hb2, hf2tool, hf2othertool, hf2look⟩ := bumpNested_step2 h1tt h1tool
  have hf1tt : ∀ t, nestedCountOf f1 "tools_triggered" t =
      nestedCountOf fields "tools_triggered" t := by
    intro t
    rw [nestedCountOf, hf1ttinner]
    rfl
  have hf2ti : countOf f2 "total_interactions" =
      countOf fields "total_interactions" + 1 := by
    rw [countOf_congr (hf2look "total_interactions" (by decide)), hf1count]
  cases hctx : ctx with
  | nil =>
      rw [hctx] at hred
      have hcore : updateCounters tool [] fields = some f2 := by
        unfold updateCounters
        rw [hb1]
        show (bumpNested f1 "tools_triggered" tool).bind _ = some f2
        rw [hb2]
        rfl
      refine ⟨f2, by rw [hred, hcore]; rfl, hf2ti, ?_, ?_, ?_, ?_, ?_, ?_⟩
      · rw [hf2tool, hf1tt]
      · intro t' ht'
        rw [hf2othertool t' ht', hf1tt]
      · intro h
        exact absurd rfl h
      · intro _
        constructor
        · rw [countOf_congr (hf2look "interactions_with_context" (by decide)),
            countOf_congr (hf1look "interactions_with_context" (by decide))]
        · rw [hf2look "context_fields_found" (by decide),
            hf1look "context_fields_found" (by decide)]
      · intro k _
        rw [nestedCountOf,
          innerOf_congr (hf2look "context_fields_found" (by decide)),
          innerOf_congr (hf1look "context_fields_found" (by decide))]
        rfl
      · intro k hk
        simp only [List.mem_cons, List.not_mem_nil, or_false, not_or] at hk
        obtain ⟨hk1, hk2, hk3, hk4⟩ := hk
        rw [hf2look k hk2, hf1look k hk1]
  | cons kv rest =>
      rw [hctx] at hiwc hcff hkeys hnd hred
      have hne : kv :: rest ≠ [] := List.cons_ne_nil kv rest
      have hiwc' := hiwc hne
      have hcff' := hcff hne
      have h2iwc : numOrAbsent f2 "interactions_with_context" := by
        rw [numOrAbsent_congr (hf2look "interactions_with_context" (by decide)),
          numOrAbsent_congr (hf1look "interactions_with_context" (by decide))]
        exact hiwc'
      obtain ⟨g1, hb3, hg1count, hg1look⟩ := bumpCounter_step h2iwc
      have hg1cffinner : innerOf g1 "context_fields_found" =
          innerOf fields "context_fields_found" := by
        rw [innerOf_congr (hg1look "context_fields_found" (by decide)),
          innerOf_congr (hf2look "context_fields_found" (by decide)),
          innerOf_congr (hf1look "context_fields_found" (by decide))]
      have hg1cffdict : outerIsDict g1 "context_fields_found" = true := by
        rw [outerIsDict_congr (hg1look "context_fields_found" (by decide)),
          outerIsDict_congr (hf2look "context_fields_found" (by decide)),
          outerIsDict_congr (hf1look "context_fields_found" (by decide))]
        exact hcff'
      have hg1keys : ∀ k ∈ (kv :: rest).map Prod.fst,
          numOrAbsent (innerOf g1 "context_fields_found") k := by
        intro k hk
        rw [hg1cffinner]
        exact hkeys k hk
      obtain ⟨fs', hfold, hmem, hnotmem, hother⟩ :=
        foldCtx (kv :: rest) g1 hnd hg1cffdict hg1keys
      have hcore : updateCounters tool (kv :: rest) fields = some fs' := by
        unfold updateCounters
        rw [hb1]
        show (bumpNested f1 "tools_triggered" tool).bind _ = some fs'
        rw [hb2]
        show (bumpCounter f2 "interactions_with_context").bind _ = some fs'
        rw [hb3]
        exact hfold
      have hg1cff : ∀ k, nestedCountOf g1 "context_fields_found" k =
          nestedCountOf fields "context_fields_found" k := by
        intro k
        rw [nestedCountOf, hg1cffinner]
        rfl
      refine ⟨fs', by rw [hred, hcore]; rfl, ?_, ?_, ?_, ?_, ?_, ?_, ?_⟩
      · rw [countOf_congr (hother "total_interactions" (by decide)),
          countOf_congr (hg1look "total_interactions" (by decide)), hf2ti]
      · rw [nestedCountOf, innerOf_congr (hother "tools_triggered" (by decide)),
          innerOf_congr (hg1look "tools_triggered" (by decide))]
        rw [show countOf (innerOf f2 "tools_triggered") tool =
          nestedCountOf f2 "tools_triggered" tool from rfl, hf2tool, hf1tt]
      · intro t' ht'
        rw [nestedCountOf, innerOf_congr (hother "tools_triggered" (by decide)),
          innerOf_congr (hg1look "tools_triggered" (by decide))]
        rw [show countOf (innerOf f2 "tools_triggered") t' =
          nestedCountOf f2 "tools_triggered" t' from rfl, hf2othertool t' ht', hf1tt]
      · intro _
        constructor
        · rw [countOf_congr (hother "interactions_with_context" (by decide)),
            hg1count, countOf_congr (hf2look "interactions_with_context" (by decide)),
            countOf_congr (hf1look "interactions_with_context" (by decide))]
        · intro k hk
          rw [hmem k hk, hg1cff]
      · intro h
        exact absurd h (List.cons_ne_nil kv rest)
      · intro k hk
        rw [hnotmem k hk, hg1cff]
      · intro k hk
        simp only [List.mem_cons, List.not_mem_nil, or_false, not_or] at hk
        obtain ⟨hk1, hk2, hk3, hk4⟩ := hk
        rw [hother k hk4, hg1look k hk3, hf2look k hk2, hf1look k hk1]

/-- Claim C7 witness: instantiation at a concrete run — tool `Bash`, one
context field `prompt`, a statistics file holding `total_interactions = 5`
and nothing else.  The update succeeds; `total_interactions` becomes 6 and
the three other touched counters, all previously missing, become 1. -/
theorem claim_C7_witness :
    ∃ fields', update_statistics "Bash" [("prompt", CtxVal.field (Json.str "hello"))]
        (.valid (.obj [("total_interactions", Json.num 5)])) = some (.obj fields') ∧
      countOf fields' "total_interactions" = 6 ∧
      nestedCountOf fields' "tools_triggered" "Bash" = 1 ∧
      countOf fields' "interactions_with_context" = 1 ∧
      nestedCountOf fields' "context_fields_found" "prompt" = 1 := by
  obtain ⟨fields', hupd, h1, h2, h3, h4, h5, h6, h7⟩ :=
    claim_C7 "Bash" [("prompt", CtxVal.field (Json.str "hello"))]
      [("total_interactions", Json.num 5)] _
      (Or.inl rfl)
      (Or.inr ⟨5, rfl⟩)
      (by decide)
      (Or.inl rfl)
      (fun _ => Or.inl rfl)
      (fun _ => by decide)
      (fun k _ => Or.inl rfl)
      (by simp)
  have h4' := h4 (by simp)
  refine ⟨fields', hupd, ?_, ?_, ?_, ?_⟩
  · rw [h1]; decide
  · rw [h2]; decide
  · rw [h4'.1]; decide
  · rw [h4'.2 "prompt" (by simp)]; decide

end UserInputLogger
